import Mathlib

/-!
Formal model of the payment verification subsystem of `mutantmaker`
(`waitForApePayment` and its helpers in `services/geminiService.ts`).

The chain client (ethers `JsonRpcProvider`, `Contract`) is an external
collaborator; it is modelled as a record of response functions, where
`Except Unit` models a call that may throw. The orchestrator additionally
returns the updated replay set and a trace of the observable events
(provider calls and verifier dispatches), so that "no network call is
made on this path" claims are statable.
-/

namespace Mutantmaker

/-- JS `String.prototype.toLowerCase` (over the ASCII range used here). -/
def jsToLower (s : String) : String := String.mk (s.data.map Char.toLower)

/-- JS `String.prototype.trim`: strips whitespace from both ends. -/
def jsTrim (s : String) : String :=
  String.mk (((s.data.dropWhile Char.isWhitespace).reverse.dropWhile Char.isWhitespace).reverse)

/-- JS `String.prototype.startsWith`. -/
def jsStartsWith (s p : String) : Bool := p.data.isPrefixOf s.data

/-- JS `String.prototype.length` (code points; the inputs here are ASCII). -/
def jsLength (s : String) : Nat := s.data.length

/-- JS falsiness of a string: only the empty string is falsy. -/
def jsIsEmpty (s : String) : Bool := s.data.isEmpty

/-- Split a character list at every occurrence of `sep`
(the list-level model of `String.split` on one character). -/
def splitOnChar (sep : Char) : List Char → List (List Char)
  | [] => [[]]
  | c :: rest =>
    let r := splitOnChar sep rest
    if c = sep then [] :: r
    else
      match r with
      | [] => [[c]]
      | w :: ws => (c :: w) :: ws

/-- A fetched transaction: the fields the verifier reads
(`tx.to`, `tx.value`). `tx_to` is `none` for contract creations
(`to` is a reserved word in Lean). -/
structure Transaction where
  tx_to : Option String
  value : Nat
deriving DecidableEq, Repr

/-- Outcome of `contract.interface.parseLog` on one log entry:
it may throw, return `null`, or return a parsed event with a name and
the `(from, to, value)` argument triple. -/
inductive LogParse where
  | throws : LogParse
  | null : LogParse
  | event (name : String) (ev_from : String) (ev_to : String) (ev_value : Nat) : LogParse
deriving DecidableEq, Repr

/-- One receipt log entry: the emitting contract address and the
(deterministic) result of parsing it against the ERC-20 ABI. -/
structure LogEntry where
  address : String
  parsed : LogParse
deriving DecidableEq, Repr

/-- A transaction receipt: execution status (`none` models a null status)
and the emitted logs. -/
structure Receipt where
  status : Option Nat
  logs : List LogEntry
deriving DecidableEq, Repr

/-- Observable events of one verification call: provider round-trips and
which verifier was dispatched. -/
inductive Ev where
  | getTransaction (h : String) : Ev
  | waitForTransaction (h : String) : Ev
  | decimalsCall (addr : String) : Ev
  | nativeVerify : Ev
  | erc20Verify : Ev
deriving DecidableEq, Repr

/-- The chain client (ethers provider/contract), an external oracle.
`Except Unit` results model calls that may throw. -/
structure ChainClient where
  getTransaction : String → Except Unit (Option Transaction)
  waitForTransaction : String → Except Unit (Option Receipt)
  decimalsCall : String → Except Unit Nat
  isAddress : String → Bool

/-- The environment configuration the module loads at start-up. -/
structure Config where
  APE_COIN_CONTRACT_ADDRESS : String
  RECEIVING_WALLET_ADDRESS : String

def NATIVE_TOKEN_ADDRESSES : List String :=
  [ "0x0000000000000000000000000000000000000000"
  , "0x0000000000000000000000000000000000000001"
  , "native"
  , "NATIVE"
  , "" ]

def NATIVE_TOKEN_DECIMALS : Nat := 18

/-- Source `isNativeToken(address)`: `!address` is true in JS for `undefined`
and for the empty string; otherwise the lowercased, trimmed input is
compared against each marker, lowercased. -/
def isNativeToken (address : Option String) : Bool :=
  match address with
  | none => true
  | some s =>
    if jsIsEmpty s then true
    else NATIVE_TOKEN_ADDRESSES.any (fun addr => jsToLower addr == jsTrim (jsToLower s))

/-- Digits of a decimal-digit character list as a number
(helper for `parseUnits`). -/
def digitsToNat (l : List Char) : Nat :=
  l.foldl (fun n c => n * 10 + (c.toNat - 48)) 0

/-- Model of ethers `parseUnits(value, decimals)`: a decimal string is
scaled to minor units as an exact integer; `none` models the throw on a
malformed string or on more fraction digits than `decimals`. -/
def parseUnits (value : String) (decimals : Nat) : Option Nat :=
  match splitOnChar '.' value.data with
  | [w] =>
    if w.length > 0 && w.all Char.isDigit then some (digitsToNat w * 10 ^ decimals)
    else none
  | [w, f] =>
    if (w.length + f.length > 0) && w.all Char.isDigit && f.all Char.isDigit
        && decide (f.length ≤ decimals) then
      some (digitsToNat w * 10 ^ decimals + digitsToNat f * 10 ^ (decimals - f.length))
    else none
  | _ => none

/-- Source `getTokenDecimals(contractAddress)`: guarded by `isAddress` and the
zero-address check, then the `decimals()` call; any throw is caught and
falls back to 18. Returns the value and the provider calls made. -/
def getTokenDecimals (client : ChainClient) (contractAddress : String) : Nat × List Ev :=
  if !(client.isAddress contractAddress)
      || contractAddress == "0x0000000000000000000000000000000000000000" then
    (NATIVE_TOKEN_DECIMALS, [])
  else
    match client.decimalsCall contractAddress with
    | .ok d => (d, [Ev.decimalsCall contractAddress])
    | .error _ => (NATIVE_TOKEN_DECIMALS, [Ev.decimalsCall contractAddress])

/-- Source `verifyNativePayment(txHash, receipt, expectedAmount, receivingAddress)`:
fetches the transaction, then checks `tx.to?.toLowerCase() === receivingAddress`
and `tx.value === expectedAmount`; a missing transaction or a thrown error
yields `false`. Returns the result and the provider calls made. -/
def verifyNativePayment (client : ChainClient) (txHash : String)
    (expectedAmount : Nat) (receivingAddress : String) : Bool × List Ev :=
  match client.getTransaction txHash with
  | .error _ => (false, [Ev.getTransaction txHash])
  | .ok none => (false, [Ev.getTransaction txHash])
  | .ok (some tx) =>
    let isToReceiver :=
      match tx.tx_to with
      | some toAddr => jsToLower toAddr == receivingAddress
      | none => false
    let isCorrectAmount := tx.value == expectedAmount
    if !isToReceiver then (false, [Ev.getTransaction txHash])
    else if !isCorrectAmount then (false, [Ev.getTransaction txHash])
    else (true, [Ev.getTransaction txHash])

/-- The log loop of `verifyERC20Payment`: logs not emitted by the
configured contract are skipped, per-log parse failures and non-Transfer
events continue the scan, and the first Transfer with matching recipient
and exact amount returns `true`. -/
def erc20LogScan (normalizedContract : String) (expectedAmount : Nat)
    (receivingAddress : String) : List LogEntry → Bool
  | [] => false
  | log :: rest =>
    if jsToLower log.address != normalizedContract then
      erc20LogScan normalizedContract expectedAmount receivingAddress rest
    else
      match log.parsed with
      | LogParse.throws => erc20LogScan normalizedContract expectedAmount receivingAddress rest
      | LogParse.null => erc20LogScan normalizedContract expectedAmount receivingAddress rest
      | LogParse.event name _ ev_to ev_value =>
        if name == "Transfer" then
          if !(jsToLower ev_to == receivingAddress) then
            erc20LogScan normalizedContract expectedAmount receivingAddress rest
          else if !(ev_value == expectedAmount) then
            erc20LogScan normalizedContract expectedAmount receivingAddress rest
          else true
        else erc20LogScan normalizedContract expectedAmount receivingAddress rest

/-- Source `verifyERC20Payment(receipt, contractAddress, expectedAmount,
receivingAddress)`: scans the receipt logs (see `erc20LogScan`); no
qualifying log yields `false`, never a throw. -/
def verifyERC20Payment (receipt : Receipt) (contractAddress : String)
    (expectedAmount : Nat) (receivingAddress : String) : Bool :=
  let normalizedContract := jsToLower contractAddress
  erc20LogScan normalizedContract expectedAmount receivingAddress receipt.logs

/-- Source `tokenAddress || APE_COIN_CONTRACT_ADDRESS`: JS `||` substitutes the
configured default for `undefined` and for the (falsy) empty string. -/
def resolvePaymentTokenAddress (cfg : Config) (tokenAddress : Option String) : String :=
  match tokenAddress with
  | none => cfg.APE_COIN_CONTRACT_ADDRESS
  | some s => if jsIsEmpty s then cfg.APE_COIN_CONTRACT_ADDRESS else s

/-- The decimals step of `waitForApePayment`:
`isNative ? NATIVE_TOKEN_DECIMALS : await getTokenDecimals(paymentTokenAddress)`,
together with the provider calls it makes. -/
def resolvedDecimals (client : ChainClient) (cfg : Config)
    (tokenAddress : Option String) : Nat × List Ev :=
  if isNativeToken (some (resolvePaymentTokenAddress cfg tokenAddress)) then
    (NATIVE_TOKEN_DECIMALS, [])
  else
    getTokenDecimals client (resolvePaymentTokenAddress cfg tokenAddress)

/-- The verification dispatch of `waitForApePayment`: the native path, or
the ERC-20 path with the one-way native fallback when it fails. Returns
the `verified` flag and the events of the verifiers that ran. -/
def dispatchVerify (client : ChainClient) (cfg : Config) (receipt : Receipt)
    (txHash : String) (expectedWei : Nat) (tokenAddress : Option String) :
    Bool × List Ev :=
  if isNativeToken (some (resolvePaymentTokenAddress cfg tokenAddress)) then
    ((verifyNativePayment client txHash expectedWei
        (jsToLower cfg.RECEIVING_WALLET_ADDRESS)).1,
      Ev.nativeVerify :: (verifyNativePayment client txHash expectedWei
        (jsToLower cfg.RECEIVING_WALLET_ADDRESS)).2)
  else if verifyERC20Payment receipt (resolvePaymentTokenAddress cfg tokenAddress)
      expectedWei (jsToLower cfg.RECEIVING_WALLET_ADDRESS) then
    (true, [Ev.erc20Verify])
  else
    ((verifyNativePayment client txHash expectedWei
        (jsToLower cfg.RECEIVING_WALLET_ADDRESS)).1,
      Ev.erc20Verify :: Ev.nativeVerify :: (verifyNativePayment client txHash
        expectedWei (jsToLower cfg.RECEIVING_WALLET_ADDRESS)).2)

/-- The `try` block of `waitForApePayment` (everything after the format
and replay checks). An `Except.error tr` result models an uncaught throw
escaping the block (`parseUnits` on a bad amount string, or the provider
throwing in `waitForTransaction`), carrying the events already made. -/
def waitForApePaymentBody (client : ChainClient) (cfg : Config)
    (processedTransactions : List String) (txHash : String)
    (expectedAmount : String) (tokenAddress : Option String) :
    Except (List Ev) (Bool × List String × List Ev) :=
  match parseUnits expectedAmount (resolvedDecimals client cfg tokenAddress).1 with
  | none => .error (resolvedDecimals client cfg tokenAddress).2
  | some expectedWei =>
    match client.waitForTransaction txHash with
    | .error _ =>
      .error ((resolvedDecimals client cfg tokenAddress).2 ++ [Ev.waitForTransaction txHash])
    | .ok none =>
      .ok (false, processedTransactions,
        (resolvedDecimals client cfg tokenAddress).2 ++ [Ev.waitForTransaction txHash])
    | .ok (some receipt) =>
      if receipt.status != some 1 then
        .ok (false, processedTransactions,
          (resolvedDecimals client cfg tokenAddress).2 ++ [Ev.waitForTransaction txHash])
      else
        .ok ((dispatchVerify client cfg receipt txHash expectedWei tokenAddress).1,
          if (dispatchVerify client cfg receipt txHash expectedWei tokenAddress).1 then
            txHash :: processedTransactions
          else processedTransactions,
          (resolvedDecimals client cfg tokenAddress).2 ++ [Ev.waitForTransaction txHash]
            ++ (dispatchVerify client cfg receipt txHash expectedWei tokenAddress).2)

/-- Source `waitForApePayment(txHash, expectedAmount, tokenAddress?)`: format
check and replay check first (no provider access on those paths), then
the `try` block; the `catch` turns any escaped throw into a plain
`false` result. Returns the result, the updated replay set, and the
event trace. -/
def waitForApePayment (client : ChainClient) (cfg : Config)
    (processedTransactions : List String) (txHash : String)
    (expectedAmount : String) (tokenAddress : Option String) :
    Bool × List String × List Ev :=
  if jsIsEmpty txHash || jsLength txHash != 66 || !(jsStartsWith txHash "0x") then
    (false, processedTransactions, [])
  else if processedTransactions.contains txHash then
    (false, processedTransactions, [])
  else
    match waitForApePaymentBody client cfg processedTransactions txHash expectedAmount tokenAddress with
    | .ok r => r
    | .error tr => (false, processedTransactions, tr)

/-- Source `clearProcessedTransaction(txHash)`: administrative removal from the
replay set. -/
def clearProcessedTransaction (processedTransactions : List String)
    (txHash : String) : List String :=
  processedTransactions.erase txHash

/-- A receipt log qualifies when it is emitted by the configured contract
and parses as a `Transfer` with matching recipient and exact amount
(characterisation used to state the ERC-20 verifier's correctness). -/
def isQualifyingLog (normalizedContract : String) (expectedAmount : Nat)
    (receivingAddress : String) (log : LogEntry) : Bool :=
  jsToLower log.address == normalizedContract &&
    match log.parsed with
    | LogParse.event name _ ev_to ev_value =>
      name == "Transfer" && jsToLower ev_to == receivingAddress && ev_value == expectedAmount
    | _ => false

/-! Helper lemmas shared by the claim theorems. -/

/-- If the hash is already recorded, the call rejects before doing anything:
result `false`, state unchanged, no events. -/
theorem waitForApePayment_of_mem (client : ChainClient) (cfg : Config)
    (st : List String) (txHash amt : String) (tok : Option String)
    (hmem : txHash ∈ st) :
    waitForApePayment client cfg st txHash amt tok = (false, st, []) := by
  unfold waitForApePayment
  split
  · rfl
  split
  · rfl
  · rename_i hc
    exact absurd (by simpa using hmem) hc

/-- The body updates the replay set exactly when it verified. -/
theorem waitForApePaymentBody_state (client : ChainClient) (cfg : Config)
    (st : List String) (txHash amt : String) (tok : Option String)
    (b : Bool) (st2 : List String) (tr : List Ev)
    (hb : waitForApePaymentBody client cfg st txHash amt tok = .ok (b, st2, tr)) :
    st2 = (if b then txHash :: st else st) := by
  unfold waitForApePaymentBody at hb
  rcases hp : parseUnits amt (resolvedDecimals client cfg tok).1 with _ | w <;> rw [hp] at hb
  · simp at hb
  · rcases hw : client.waitForTransaction txHash with u | o <;> rw [hw] at hb
    · simp at hb
    · rcases o with _ | receipt
      · simp only [Except.ok.injEq, Prod.mk.injEq] at hb
        obtain ⟨h1, h2, -⟩ := hb
        subst h1; subst h2; simp
      · dsimp only at hb
        by_cases hs : (receipt.status != some 1) = true
        · rw [if_pos hs] at hb
          simp only [Except.ok.injEq, Prod.mk.injEq] at hb
          obtain ⟨h1, h2, -⟩ := hb
          subst h1; subst h2; simp
        · rw [if_neg hs] at hb
          simp only [Except.ok.injEq, Prod.mk.injEq] at hb
          obtain ⟨h1, h2, -⟩ := hb
          subst h1; subst h2; rfl

/-- A true result records the hash in the replay set. -/
theorem waitForApePayment_true_mem (client : ChainClient) (cfg : Config)
    (st : List String) (txHash amt : String) (tok : Option String)
    (hres : (waitForApePayment client cfg st txHash amt tok).1 = true) :
    txHash ∈ (waitForApePayment client cfg st txHash amt tok).2.1 := by
  by_cases hf : (jsIsEmpty txHash || jsLength txHash != 66 || !(jsStartsWith txHash "0x")) = true
  · unfold waitForApePayment at hres
    rw [if_pos hf] at hres
    simp at hres
  · by_cases hc : st.contains txHash = true
    · unfold waitForApePayment at hres
      rw [if_neg hf, if_pos hc] at hres
      simp at hres
    · unfold waitForApePayment at hres ⊢
      rw [if_neg hf, if_neg hc] at hres ⊢
      rcases hbody : waitForApePaymentBody client cfg st txHash amt tok with tr | ⟨b, st2, tr⟩
      · rw [hbody] at hres
        simp at hres
      · have hstate := waitForApePaymentBody_state client cfg st txHash amt tok b st2 tr hbody
        rw [hbody] at hres
        dsimp only at hres
        rw [hstate]
        simp [hres]

/-- When the guards pass, the call is the caught body. -/
theorem waitForApePayment_eq_body (client : ChainClient) (cfg : Config)
    (st : List String) (txHash amt : String) (tok : Option String)
    (hf : (jsIsEmpty txHash || jsLength txHash != 66 || !(jsStartsWith txHash "0x")) = false)
    (hrep : txHash ∉ st) :
    waitForApePayment client cfg st txHash amt tok =
      match waitForApePaymentBody client cfg st txHash amt tok with
      | .ok r => r
      | .error tr => (false, st, tr) := by
  unfold waitForApePayment
  rw [if_neg (by simp [hf]), if_neg (by simpa using hrep)]

/-- The decimals step only ever performs `decimals()` calls. -/
theorem resolvedDecimals_events (client : ChainClient) (cfg : Config)
    (tok : Option String) :
    ∀ e ∈ (resolvedDecimals client cfg tok).2, ∃ a, e = Ev.decimalsCall a := by
  unfold resolvedDecimals getTokenDecimals
  intro e he
  split at he
  · simp at he
  · split at he
    · simp at he
    · split at he <;> simp at he <;> exact ⟨_, he⟩

/-- The native verifier performs exactly one `getTransaction` call. -/
theorem verifyNativePayment_trace (client : ChainClient) (txHash : String)
    (w : Nat) (recv : String) :
    (verifyNativePayment client txHash w recv).2 = [Ev.getTransaction txHash] := by
  unfold verifyNativePayment
  split
  · rfl
  · rfl
  · dsimp only
    split
    · rfl
    split
    · rfl
    · rfl

/-- The log scan accepts exactly when some log qualifies. -/
theorem erc20LogScan_iff (nc : String) (w : Nat) (recv : String) (logs : List LogEntry) :
    erc20LogScan nc w recv logs = true ↔
      ∃ log ∈ logs, isQualifyingLog nc w recv log = true := by
  induction logs with
  | nil => simp [erc20LogScan]
  | cons log rest ih =>
    unfold erc20LogScan
    by_cases ha : (jsToLower log.address == nc) = true
    · rw [if_neg (by simp [bne, ha])]
      rcases hp : log.parsed with _ | _ | ⟨name, f, t, v⟩
      · simp [ih, isQualifyingLog, hp]
      · simp [ih, isQualifyingLog, hp]
      · dsimp only
        by_cases hn : (name == "Transfer") = true
        · by_cases ht : (jsToLower t == recv) = true
          · by_cases hv : (v == w) = true
            · rw [if_pos hn, if_neg (by simp [ht]), if_neg (by simp [hv])]
              simp [isQualifyingLog, hp, ha, hn, ht, hv]
              exact Or.inl (by simpa using ha)
            · rw [if_pos hn, if_neg (by simp [ht]), if_pos (by simp [hv])]
              simp [ih, isQualifyingLog, hp, hv]
          · rw [if_pos hn, if_pos (by simp [ht])]
            simp [ih, isQualifyingLog, hp, ht]
        · rw [if_neg hn]
          simp [ih, isQualifyingLog, hp, hn]
    · rw [if_pos (by simp [bne, ha])]
      simp [ih, isQualifyingLog, ha]
      exact fun h _ => absurd h (by simpa using ha)

/-- The classifier accepts exactly the absent input and the four
normalized markers. -/
theorem isNativeToken_iff (a : Option String) :
    isNativeToken a = true ↔
      (a = none ∨ ∃ s, a = some s ∧
        (jsTrim (jsToLower s) = "0x0000000000000000000000000000000000000000" ∨
         jsTrim (jsToLower s) = "0x0000000000000000000000000000000000000001" ∨
         jsTrim (jsToLower s) = "native" ∨
         jsTrim (jsToLower s) = "")) := by
  rcases a with _ | s
  · simp [isNativeToken]
  · by_cases he : jsIsEmpty s = true
    · have hs : s = "" := by
        have := he
        unfold jsIsEmpty at this
        cases s with
        | mk l => cases l <;> simp_all
      subst hs
      exact ⟨fun _ => Or.inr ⟨"", rfl, Or.inr (Or.inr (Or.inr (by decide)))⟩, fun _ => by decide⟩
    · unfold isNativeToken
      dsimp only
      rw [if_neg he]
      simp only [NATIVE_TOKEN_ADDRESSES, List.any_cons, List.any_nil]
      have h0 : jsToLower "0x0000000000000000000000000000000000000000" = "0x0000000000000000000000000000000000000000" := by decide
      have h1 : jsToLower "0x0000000000000000000000000000000000000001" = "0x0000000000000000000000000000000000000001" := by decide
      have h2 : jsToLower "native" = "native" := by decide
      have h3 : jsToLower "NATIVE" = "native" := by decide
      have h4 : jsToLower "" = "" := by decide
      rw [h0, h1, h2, h3, h4]
      constructor
      · intro hL
        refine Or.inr ⟨s, rfl, ?_⟩
        simp only [Bool.or_eq_true, beq_iff_eq] at hL
        rcases hL with h | h | h | h | h | h
        · exact Or.inl h.symm
        · exact Or.inr (Or.inl h.symm)
        · exact Or.inr (Or.inr (Or.inl h.symm))
        · exact Or.inr (Or.inr (Or.inl h.symm))
        · exact Or.inr (Or.inr (Or.inr h.symm))
        · exact absurd h (by simp)
      · rintro (h | ⟨s1, hs1, h⟩)
        · exact absurd h (by simp)
        · obtain rfl : s = s1 := Option.some.inj hs1
          simp only [Bool.or_eq_true, beq_iff_eq]
          rcases h with h | h | h | h
          · exact Or.inl h.symm
          · exact Or.inr (Or.inl h.symm)
          · exact Or.inr (Or.inr (Or.inl h.symm))
          · exact Or.inr (Or.inr (Or.inr (Or.inr (Or.inl h.symm))))

/-- Characterisation of the native verifier on a non-throwing fetch. -/
theorem verifyNativePayment_iff (client : ChainClient) (txHash : String)
    (w : Nat) (recv : String) (txOpt : Option Transaction)
    (hget : client.getTransaction txHash = .ok txOpt) :
    ((verifyNativePayment client txHash w recv).1 = true ↔
      ∃ tx, txOpt = some tx ∧ ∃ a, tx.tx_to = some a ∧ jsToLower a = recv ∧ tx.value = w) := by
  unfold verifyNativePayment
  rw [hget]
  rcases txOpt with _ | tx
  · simp
  · dsimp only
    rcases hto : tx.tx_to with _ | a
    · simp [hto]
    · by_cases hrecv : jsToLower a = recv
      · by_cases hval : tx.value = w
        · simp [hto, hrecv, hval]
        · simp [hto, hrecv, hval]
      · simp [hto, hrecv]

theorem resolvedDecimals_congr (client : ChainClient) (cfg : Config)
    (tok1 tok2 : Option String)
    (h : resolvePaymentTokenAddress cfg tok1 = resolvePaymentTokenAddress cfg tok2) :
    resolvedDecimals client cfg tok1 = resolvedDecimals client cfg tok2 := by
  unfold resolvedDecimals
  rw [h]

theorem dispatchVerify_congr (client : ChainClient) (cfg : Config)
    (receipt : Receipt) (txHash : String) (w : Nat) (tok1 tok2 : Option String)
    (h : resolvePaymentTokenAddress cfg tok1 = resolvePaymentTokenAddress cfg tok2) :
    dispatchVerify client cfg receipt txHash w tok1 = dispatchVerify client cfg receipt txHash w tok2 := by
  unfold dispatchVerify
  rw [h]

theorem waitForApePaymentBody_congr (client : ChainClient) (cfg : Config)
    (st : List String) (txHash amt : String) (tok1 tok2 : Option String)
    (h : resolvePaymentTokenAddress cfg tok1 = resolvePaymentTokenAddress cfg tok2) :
    waitForApePaymentBody client cfg st txHash amt tok1 =
      waitForApePaymentBody client cfg st txHash amt tok2 := by
  unfold waitForApePaymentBody
  rw [resolvedDecimals_congr client cfg tok1 tok2 h]
  rcases hp : parseUnits amt (resolvedDecimals client cfg tok2).1 with _ | w
  · rfl
  · dsimp only
    rcases hw : client.waitForTransaction txHash with u | o
    · rfl
    · rcases o with _ | receipt
      · rfl
      · dsimp only
        rw [dispatchVerify_congr client cfg receipt txHash w tok1 tok2 h]

theorem waitForApePayment_congr (client : ChainClient) (cfg : Config)
    (st : List String) (txHash amt : String) (tok1 tok2 : Option String)
    (h : resolvePaymentTokenAddress cfg tok1 = resolvePaymentTokenAddress cfg tok2) :
    waitForApePayment client cfg st txHash amt tok1 = waitForApePayment client cfg st txHash amt tok2 := by
  unfold waitForApePayment
  rw [waitForApePaymentBody_congr client cfg st txHash amt tok1 tok2 h]

/-! Concrete fixtures used by witnesses and counterexamples. -/

/-- A well-formed 66-character transaction hash. -/
def txH : String := "0x" ++ String.mk (List.replicate 64 'a')

/-- A configuration whose default asset is the zero address (native). -/
def cfgW : Config :=
  { APE_COIN_CONTRACT_ADDRESS := "0x0000000000000000000000000000000000000000"
  , RECEIVING_WALLET_ADDRESS := "0xRecv" }

/-- A configuration whose default asset is a token contract. -/
def cfgTok : Config :=
  { APE_COIN_CONTRACT_ADDRESS := "0x1111111111111111111111111111111111111111"
  , RECEIVING_WALLET_ADDRESS := "0xRecv" }

/-- A client where everything succeeds and the transaction pays
`10^18` wei to the receiving wallet. -/
def clientW : ChainClient :=
  { getTransaction := fun _ => .ok (some { tx_to := some "0xrecv", value := 10 ^ 18 })
  , waitForTransaction := fun _ => .ok (some { status := some 1, logs := [] })
  , decimalsCall := fun _ => .ok 18
  , isAddress := fun _ => true }

/-- A client whose transport layer throws on every provider call. -/
def clientThrow : ChainClient :=
  { getTransaction := fun _ => .error ()
  , waitForTransaction := fun _ => .error ()
  , decimalsCall := fun _ => .error ()
  , isAddress := fun _ => true }

/-- A client whose transaction pays one wei less than `10^19`. -/
def client999 : ChainClient :=
  { getTransaction := fun _ =>
      .ok (some { tx_to := some "0xrecv", value := 9999999999999999999 })
  , waitForTransaction := fun _ => .ok (some { status := some 1, logs := [] })
  , decimalsCall := fun _ => .ok 18
  , isAddress := fun _ => true }

/-- A client whose confirmation wait times out (receipt `null`). -/
def clientNone : ChainClient :=
  { getTransaction := fun _ => .ok none
  , waitForTransaction := fun _ => .ok none
  , decimalsCall := fun _ => .ok 18
  , isAddress := fun _ => true }

/-- A client with an empty-log successful receipt and no findable
transaction (both verifiers fail). -/
def clientTok : ChainClient :=
  { getTransaction := fun _ => .ok none
  , waitForTransaction := fun _ => .ok (some { status := some 1, logs := [] })
  , decimalsCall := fun _ => .ok 18
  , isAddress := fun _ => true }

/-- A client with an empty-log successful receipt whose transaction is a
native transfer of `10^18` wei to the receiving wallet (the ERC-20 path
fails, the native fallback succeeds). -/
def clientFb : ChainClient :=
  { getTransaction := fun _ => .ok (some { tx_to := some "0xrecv", value := 10 ^ 18 })
  , waitForTransaction := fun _ => .ok (some { status := some 1, logs := [] })
  , decimalsCall := fun _ => .ok 18
  , isAddress := fun _ => true }

/-- A receipt whose only log is a Transfer-shaped log from a contract
other than the configured one. -/
def receiptSpoof : Receipt :=
  { status := some 1
  , logs := [ { address := "0x9999999999999999999999999999999999999999"
              , parsed := LogParse.event "Transfer" "0xsender" "0xrecv" 100 } ] }

/-! Claim theorems. -/

/-- C1: once `waitForApePayment` has returned true for a hash, every
subsequent call with the same hash returns false, whatever the amount,
asset address, configuration or chain state, because the hash was
recorded in the replay set and the replay check rejects it first
(absent any `clearProcessedTransaction`). -/
theorem waitForApePayment_replay_rejected (client client2 : ChainClient)
    (cfg cfg2 : Config) (st : List String) (txHash amt amt2 : String)
    (tok tok2 : Option String)
    (hfirst : (waitForApePayment client cfg st txHash amt tok).1 = true) :
    (waitForApePayment client2 cfg2
        (waitForApePayment client cfg st txHash amt tok).2.1 txHash amt2 tok2).1 = false := by
  have hmem := waitForApePayment_true_mem client cfg st txHash amt tok hfirst
  rw [waitForApePayment_of_mem client2 cfg2 _ txHash amt2 tok2 hmem]

/-- Witness for C1 at a concrete accepting run. -/
theorem waitForApePayment_replay_rejected_witness :
    (waitForApePayment clientW cfgW [] txH "1.0" none).1 = true ∧
      (waitForApePayment clientW cfgW
          (waitForApePayment clientW cfgW [] txH "1.0" none).2.1 txH "2.0"
          (some "0xdeadbeef")).1 = false :=
  ⟨by decide,
    waitForApePayment_replay_rejected clientW clientW cfgW cfgW [] txH "1.0" "2.0"
      none (some "0xdeadbeef") (by decide)⟩

/-- C5: a malformed hash (empty, wrong length, or missing the 0x prefix)
is rejected immediately: result false, state unchanged, and an empty
event trace, so no provider call of any kind is made. -/
theorem waitForApePayment_malformed_hash (client : ChainClient) (cfg : Config)
    (st : List String) (txHash amt : String) (tok : Option String)
    (hbad : jsIsEmpty txHash = true ∨ jsLength txHash ≠ 66 ∨
      jsStartsWith txHash "0x" = false) :
    waitForApePayment client cfg st txHash amt tok = (false, st, []) := by
  unfold waitForApePayment
  have hc : (jsIsEmpty txHash || jsLength txHash != 66 || !(jsStartsWith txHash "0x")) = true := by
    rcases hbad with h | h | h <;> simp [h]
  rw [if_pos hc]

/-- Witness for C5 at the concrete malformed input "not-a-hash". -/
theorem waitForApePayment_malformed_hash_witness :
    jsLength "not-a-hash" ≠ 66 ∧
      waitForApePayment clientW cfgW [] "not-a-hash" "1.0" none = (false, [], []) :=
  ⟨by decide,
    waitForApePayment_malformed_hash clientW cfgW [] "not-a-hash" "1.0" none
      (Or.inr (Or.inl (by decide)))⟩

/-- C2 counterexample: on a transport failure (the provider throws in
`waitForTransaction`), `waitForApePayment` returns the plain
business-rejection value false — the catch-all swallows the error, so no
distinguishable error reaches the caller. -/
theorem waitForApePayment_transport_error_cx :
    waitForApePayment clientThrow cfgW [] txH "1.0" none =
      (false, [], [Ev.waitForTransaction txH]) := by
  decide

/-- C2 amended: every throw escaping the verification body — including
chain-client transport failures — is caught by `waitForApePayment` and
resolves to the same false result as a business rejection. -/
theorem waitForApePayment_catches_all_errors (client : ChainClient)
    (cfg : Config) (st : List String) (txHash amt : String)
    (tok : Option String) (tr : List Ev)
    (hf : (jsIsEmpty txHash || jsLength txHash != 66 || !(jsStartsWith txHash "0x")) = false)
    (hrep : txHash ∉ st)
    (hb : waitForApePaymentBody client cfg st txHash amt tok = .error tr) :
    waitForApePayment client cfg st txHash amt tok = (false, st, tr) := by
  rw [waitForApePayment_eq_body client cfg st txHash amt tok hf hrep, hb]

/-- Witness for the amended C2 at the throwing client. -/
theorem waitForApePayment_catches_all_errors_witness :
    waitForApePaymentBody clientThrow cfgW [] txH "1.0" none =
        .error [Ev.waitForTransaction txH] ∧
      waitForApePayment clientThrow cfgW [] txH "1.0" none =
        (false, [], [Ev.waitForTransaction txH]) :=
  ⟨by rfl,
    waitForApePayment_catches_all_errors clientThrow cfgW [] txH "1.0" none
      [Ev.waitForTransaction txH] (by decide) (by simp) (by rfl)⟩

/-- C3: the native verifier accepts exactly when the fetched transaction
exists, its recipient lowercased equals the (lowercased) receiving
address, and its value equals the expected minor units exactly;
`parseUnits "10.0" 18` is exactly `10^19`; a transfer of one wei less is
rejected; a missing transaction yields false (after its single fetch),
not an exception. -/
theorem verifyNativePayment_spec :
    (∀ (client : ChainClient) (txHash : String) (w : Nat) (recv : String)
        (txOpt : Option Transaction),
      client.getTransaction txHash = .ok txOpt →
        ((verifyNativePayment client txHash w recv).1 = true ↔
          ∃ tx, txOpt = some tx ∧
            ∃ a, tx.tx_to = some a ∧ jsToLower a = recv ∧ tx.value = w))
    ∧ parseUnits "10.0" 18 = some 10000000000000000000
    ∧ (verifyNativePayment client999 txH 10000000000000000000 "0xrecv").1 = false
    ∧ (∀ (client : ChainClient) (txHash : String) (w : Nat) (recv : String),
        client.getTransaction txHash = .ok none →
          verifyNativePayment client txHash w recv = (false, [Ev.getTransaction txHash])) := by
  refine ⟨verifyNativePayment_iff, by decide, by decide, ?_⟩
  intro client txHash w recv hget
  unfold verifyNativePayment
  rw [hget]

/-- Witness for C3: a concrete exact native payment is accepted. -/
theorem verifyNativePayment_spec_witness :
    (verifyNativePayment clientW txH (10 ^ 18) "0xrecv").1 = true :=
  (verifyNativePayment_spec.1 clientW txH (10 ^ 18) "0xrecv"
      (some { tx_to := some "0xrecv", value := 10 ^ 18 }) rfl).mpr
    ⟨{ tx_to := some "0xrecv", value := 10 ^ 18 }, rfl, "0xrecv", rfl, by decide, rfl⟩

/-- C7: the token classifier accepts exactly the absent input and the
inputs whose trimmed lowercased form is the zero address, the
placeholder address, "native", or the empty string; absent input yields
true; it is a pure function of its argument. -/
theorem isNativeToken_spec :
    (∀ a : Option String,
      isNativeToken a = true ↔
        (a = none ∨ ∃ s, a = some s ∧
          (jsTrim (jsToLower s) = "0x0000000000000000000000000000000000000000" ∨
           jsTrim (jsToLower s) = "0x0000000000000000000000000000000000000001" ∨
           jsTrim (jsToLower s) = "native" ∨
           jsTrim (jsToLower s) = "")))
    ∧ isNativeToken none = true :=
  ⟨isNativeToken_iff, rfl⟩

/-- C4: the ERC-20 verifier ignores logs from other contracts (a
Transfer-shaped log from a different contract never qualifies, so a
receipt containing only such logs yields false), accepts exactly when
some log from the configured contract decodes as a Transfer with
matching recipient and exact value, returns false — not an exception —
when no log qualifies, and swallows per-log decode failures. -/
theorem verifyERC20Payment_spec :
    (∀ (receipt : Receipt) (c : String) (w : Nat) (recv : String),
      (∀ log ∈ receipt.logs, jsToLower log.address ≠ jsToLower c) →
        verifyERC20Payment receipt c w recv = false)
    ∧ (∀ (receipt : Receipt) (c : String) (w : Nat) (recv : String),
        verifyERC20Payment receipt c w recv = true ↔
          ∃ log ∈ receipt.logs, isQualifyingLog (jsToLower c) w recv log = true)
    ∧ (∀ (status : Option Nat) (logs1 logs2 : List LogEntry) (a c : String)
        (w : Nat) (recv : String),
        verifyERC20Payment ⟨status, logs1 ++ ⟨a, LogParse.throws⟩ :: logs2⟩ c w recv =
          verifyERC20Payment ⟨status, logs1 ++ logs2⟩ c w recv) := by
  have hiff : ∀ (receipt : Receipt) (c : String) (w : Nat) (recv : String),
      verifyERC20Payment receipt c w recv = true ↔
        ∃ log ∈ receipt.logs, isQualifyingLog (jsToLower c) w recv log = true := by
    intro receipt c w recv
    unfold verifyERC20Payment
    exact erc20LogScan_iff (jsToLower c) w recv receipt.logs
  refine ⟨?_, hiff, ?_⟩
  · intro receipt c w recv hnone
    have : ¬ verifyERC20Payment receipt c w recv = true := by
      rw [hiff]
      rintro ⟨log, hmem, hq⟩
      unfold isQualifyingLog at hq
      have := (Bool.and_eq_true _ _).mp hq
      exact absurd (by simpa using this.1) (hnone log hmem)
    simpa using this
  · intro status logs1 logs2 a c w recv
    by_cases h : verifyERC20Payment ⟨status, logs1 ++ logs2⟩ c w recv = true
    · rw [h]
      rw [hiff]
      rw [hiff] at h
      obtain ⟨log, hmem, hq⟩ := h
      refine ⟨log, ?_, hq⟩
      simp only [List.mem_append] at hmem ⊢
      rcases hmem with h1 | h2
      · exact Or.inl h1
      · exact Or.inr (List.mem_cons_of_mem _ h2)
    · have h2 : ¬ verifyERC20Payment ⟨status, logs1 ++ ⟨a, LogParse.throws⟩ :: logs2⟩ c w recv = true := by
        rw [hiff]
        rintro ⟨log, hmem, hq⟩
        apply h
        rw [hiff]
        refine ⟨log, ?_, hq⟩
        simp only [List.mem_append, List.mem_cons] at hmem ⊢
        rcases hmem with h1 | h1 | h1
        · exact Or.inl h1
        · subst h1
          unfold isQualifyingLog at hq
          simp at hq
        · exact Or.inr h1
      simp only [Bool.not_eq_true] at h h2
      rw [h, h2]

/-- Witness for C4: a matching Transfer log from a different contract is
rejected (spoofing resistance). -/
theorem verifyERC20Payment_spec_witness :
    verifyERC20Payment receiptSpoof "0x1111111111111111111111111111111111111111" 100 "0xrecv" = false :=
  verifyERC20Payment_spec.1 receiptSpoof "0x1111111111111111111111111111111111111111" 100 "0xrecv"
    (by decide)

/-- C8: decimals resolution never raises and always falls back to 18:
a failing `decimals()` call yields 18; an invalid address yields 18 with
no call; and for a native asset the orchestrator resolves 18 with no
provider call at all. -/
theorem getTokenDecimals_spec :
    (∀ (client : ChainClient) (addr : String),
      client.decimalsCall addr = .error () →
        (getTokenDecimals client addr).1 = NATIVE_TOKEN_DECIMALS)
    ∧ (∀ (client : ChainClient) (addr : String),
        client.isAddress addr = false →
          getTokenDecimals client addr = (NATIVE_TOKEN_DECIMALS, []))
    ∧ (∀ (client : ChainClient) (cfg : Config) (tok : Option String),
        isNativeToken (some (resolvePaymentTokenAddress cfg tok)) = true →
          resolvedDecimals client cfg tok = (NATIVE_TOKEN_DECIMALS, [])) := by
  refine ⟨?_, ?_, ?_⟩
  · intro client addr h
    unfold getTokenDecimals
    split
    · rfl
    · rw [h]
  · intro client addr h
    unfold getTokenDecimals
    rw [if_pos (by simp [h])]
  · intro client cfg tok h
    unfold resolvedDecimals
    rw [if_pos h]

/-- Witness for C8: the throwing client still resolves 18. -/
theorem getTokenDecimals_spec_witness :
    (getTokenDecimals clientThrow "0x1111111111111111111111111111111111111111").1 =
      NATIVE_TOKEN_DECIMALS :=
  getTokenDecimals_spec.1 clientThrow "0x1111111111111111111111111111111111111111" rfl

/-- C6: on the token path, when ERC-20 log verification fails, the
native verifier runs as a fallback against the same expected minor
units, and its success makes the overall result true. -/
theorem waitForApePayment_token_native_fallback (client : ChainClient)
    (cfg : Config) (st : List String) (txHash amt : String)
    (tok : Option String) (w : Nat) (receipt : Receipt)
    (hf : (jsIsEmpty txHash || jsLength txHash != 66 || !(jsStartsWith txHash "0x")) = false)
    (hrep : txHash ∉ st)
    (hnat : isNativeToken (some (resolvePaymentTokenAddress cfg tok)) = false)
    (hw : parseUnits amt (resolvedDecimals client cfg tok).1 = some w)
    (hwait : client.waitForTransaction txHash = .ok (some receipt))
    (hst : receipt.status = some 1)
    (herc : verifyERC20Payment receipt (resolvePaymentTokenAddress cfg tok) w
        (jsToLower cfg.RECEIVING_WALLET_ADDRESS) = false)
    (hnv : (verifyNativePayment client txHash w
        (jsToLower cfg.RECEIVING_WALLET_ADDRESS)).1 = true) :
    (waitForApePayment client cfg st txHash amt tok).1 = true := by
  rw [waitForApePayment_eq_body client cfg st txHash amt tok hf hrep]
  unfold waitForApePaymentBody
  rw [hw, hwait]
  dsimp only
  rw [if_neg (by simp [hst])]
  dsimp only
  unfold dispatchVerify
  rw [if_neg (by simp [hnat]), if_neg (by simp [herc])]
  exact hnv

/-- Witness for C6: a native transfer under a configured token address
is accepted through the fallback. -/
theorem waitForApePayment_token_native_fallback_witness :
    (waitForApePayment clientFb cfgTok [] txH "1.0" none).1 = true :=
  waitForApePayment_token_native_fallback clientFb cfgTok [] txH "1.0" none
    (10 ^ 18) { status := some 1, logs := [] } (by decide) (by simp)
    (by decide) (by decide) (by rfl) (by decide) (by decide) (by decide)

/-- C9: for a well-formed, non-replayed hash, a timed-out/not-found wait
(null receipt) or a receipt with non-success status yields false with
the replay set unchanged, and no verifier runs: the trace contains no
transaction fetch and no verifier dispatch (and, the function being
total, no exception reaches the caller). -/
theorem waitForApePayment_wait_failure (client : ChainClient) (cfg : Config)
    (st : List String) (txHash amt : String) (tok : Option String)
    (hf : (jsIsEmpty txHash || jsLength txHash != 66 || !(jsStartsWith txHash "0x")) = false)
    (hrep : txHash ∉ st)
    (hwait : client.waitForTransaction txHash = .ok none ∨
      ∃ receipt, client.waitForTransaction txHash = .ok (some receipt) ∧
        receipt.status ≠ some 1) :
    ∃ tr, waitForApePayment client cfg st txHash amt tok = (false, st, tr) ∧
      (∀ a, Ev.getTransaction a ∉ tr) ∧
      Ev.nativeVerify ∉ tr ∧ Ev.erc20Verify ∉ tr := by
  have hdecEv : ∀ e ∈ (resolvedDecimals client cfg tok).2,
      (∀ a, e ≠ Ev.getTransaction a) ∧ e ≠ Ev.nativeVerify ∧ e ≠ Ev.erc20Verify := by
    intro e he
    obtain ⟨x, rfl⟩ := resolvedDecimals_events client cfg tok e he
    exact ⟨fun a => by simp, by simp, by simp⟩
  have hmem2 : ∀ e ∈ (resolvedDecimals client cfg tok).2 ++ [Ev.waitForTransaction txHash],
      (∀ a, e ≠ Ev.getTransaction a) ∧ e ≠ Ev.nativeVerify ∧ e ≠ Ev.erc20Verify := by
    intro e he
    rcases List.mem_append.mp he with h | h
    · exact hdecEv e h
    · simp only [List.mem_singleton] at h
      subst h
      exact ⟨fun a => by simp, by simp, by simp⟩
  rw [waitForApePayment_eq_body client cfg st txHash amt tok hf hrep]
  unfold waitForApePaymentBody
  rcases hp : parseUnits amt (resolvedDecimals client cfg tok).1 with _ | w
  · exact ⟨(resolvedDecimals client cfg tok).2, rfl,
      fun a hm => (hdecEv _ hm).1 a rfl,
      fun hm => (hdecEv _ hm).2.1 rfl,
      fun hm => (hdecEv _ hm).2.2 rfl⟩
  · rcases hwait with hnone | ⟨receipt, hsome, hst⟩
    · rw [hnone]
      exact ⟨(resolvedDecimals client cfg tok).2 ++ [Ev.waitForTransaction txHash], rfl,
        fun a hm => (hmem2 _ hm).1 a rfl,
        fun hm => (hmem2 _ hm).2.1 rfl,
        fun hm => (hmem2 _ hm).2.2 rfl⟩
    · rw [hsome]
      dsimp only
      rw [if_pos (by simpa using hst)]
      exact ⟨(resolvedDecimals client cfg tok).2 ++ [Ev.waitForTransaction txHash], rfl,
        fun a hm => (hmem2 _ hm).1 a rfl,
        fun hm => (hmem2 _ hm).2.1 rfl,
        fun hm => (hmem2 _ hm).2.2 rfl⟩

/-- Witness for C9 at a concrete timed-out wait. -/
theorem waitForApePayment_wait_failure_witness :
    ∃ tr, waitForApePayment clientNone cfgW [] txH "1.0" none = (false, [], tr) ∧
      (∀ a, Ev.getTransaction a ∉ tr) ∧
      Ev.nativeVerify ∉ tr ∧ Ev.erc20Verify ∉ tr :=
  waitForApePayment_wait_failure clientNone cfgW [] txH "1.0" none
    (by decide) (by simp) (Or.inl rfl)

/-- C10: an empty-string asset address is replaced by the configured
default before classification (JS truthiness of the or-default), so the
whole call behaves exactly as if the default had been passed; the
classifier alone would have treated the empty string as native, yet with
a token default the call dispatches the ERC-20 verifier. -/
theorem waitForApePayment_empty_asset_default :
    (∀ (client : ChainClient) (cfg : Config) (st : List String) (txHash amt : String),
      waitForApePayment client cfg st txHash amt (some "") =
        waitForApePayment client cfg st txHash amt (some cfg.APE_COIN_CONTRACT_ADDRESS))
    ∧ (∀ cfg : Config,
        resolvePaymentTokenAddress cfg (some "") = cfg.APE_COIN_CONTRACT_ADDRESS)
    ∧ isNativeToken (some "") = true
    ∧ Ev.erc20Verify ∈ (waitForApePayment clientTok cfgTok [] txH "1.0" (some "")).2.2 := by
  have hres : ∀ cfg : Config,
      resolvePaymentTokenAddress cfg (some "") = cfg.APE_COIN_CONTRACT_ADDRESS := by
    intro cfg
    rfl
  have hres2 : ∀ cfg : Config,
      resolvePaymentTokenAddress cfg (some cfg.APE_COIN_CONTRACT_ADDRESS) =
        cfg.APE_COIN_CONTRACT_ADDRESS := by
    intro cfg
    unfold resolvePaymentTokenAddress
    dsimp only
    split <;> rfl
  refine ⟨?_, hres, by decide, by decide⟩
  intro client cfg st txHash amt
  exact waitForApePayment_congr client cfg st txHash amt _ _
    ((hres cfg).trans (hres2 cfg).symm)

end Mutantmaker
